import Mathlib

/-!
Shallow embedding of the online-school backend (`courses` app): its data
model (models.py), serializer validation (serializers.py) and view-level
operations (views.py).  Records are stored in lists; each HTTP operation is
a pure function from a store (plus the authenticated caller and payload) to
an `ApiResult`, where `.err s m` is an HTTP error response with status `s`
and detail message `m` (DRF maps `serializers.ValidationError` to 400), and
`.crash m` is an unhandled Python exception (HTTP 500).
-/

namespace OnlineSchool

abbrev UserId := Nat
abbrev CourseId := Nat
abbrev LessonId := Nat
abbrev AssignmentId := Nat
abbrev SubmissionId := Nat

/-- `User.ROLE_CHOICES` in models.py: teacher | student. -/
inductive Role where
  | teacher
  | student
deriving DecidableEq, Repr

structure User where
  id : UserId
  role : Role
deriving DecidableEq, Repr

/-- `User.is_teacher` property: `self.role == "teacher"`. -/
def User.is_teacher (u : User) : Bool :=
  u.role == Role.teacher

/-- `Course.level_choices`. -/
inductive Level where
  | beginner
  | intermediate
  | advanced
deriving DecidableEq, Repr

/-- `Course.category_choices`. -/
inductive Category where
  | programming
  | design
  | marketing
  | business
deriving DecidableEq, Repr

/-- models.Course (image field omitted; `teacher` is the owning user's id). -/
structure Course where
  id : CourseId
  name : String
  description : String
  price : Nat
  unit_of_time : String
  duration : Nat
  level : Level
  category : Category
  published : Bool
  created_at : Nat
  teacher : UserId
deriving DecidableEq, Repr

/-- models.Lesson. `serial_number` is a `PositiveIntegerField` (admits 0). -/
structure Lesson where
  id : LessonId
  course : CourseId
  name : String
  description : String
  content : String
  link_to_video : Option String
  duration : ℚ
  serial_number : Nat
deriving DecidableEq, Repr

/-- models.Enrollment; `(student, course)` is `unique_together` in the schema. -/
structure Enrollment where
  student : UserId
  course : CourseId
  enrolled_at : Nat
  progress : ℚ
  completed_at : Option Nat
deriving DecidableEq, Repr

/-- models.Assignment. -/
structure Assignment where
  id : AssignmentId
  lesson : LessonId
  name : String
  description : String
  max_score : Nat
  due_date : Nat
deriving DecidableEq, Repr

/-- `Submission.status_choices`. -/
inductive SubmissionStatus where
  | pending
  | checked
  | late
deriving DecidableEq, Repr

/-- models.Submission. `score` is nullable with default 0. -/
structure Submission where
  id : SubmissionId
  assignment : AssignmentId
  student : UserId
  answer : String
  file : Option String
  score : Option Int
  teacher_comment : Option String
  submitted_at : Nat
  status : SubmissionStatus
deriving DecidableEq, Repr

/-- models.Progress; `(student, lesson)` is `unique_together`. -/
structure ProgressRec where
  student : UserId
  lesson : LessonId
  completed : Bool
  completed_at : Option Nat
deriving DecidableEq, Repr

/-- The relational store backing the app. -/
structure Store where
  users : List User
  courses : List Course
  lessons : List Lesson
  assignments : List Assignment
  enrollments : List Enrollment
  submissions : List Submission
  progresses : List ProgressRec
deriving DecidableEq, Repr

/-- Outcome of one request: success value, HTTP error response
(status, detail), or an unhandled exception (Python traceback / HTTP 500).
An `.err` or `.crash` leaves the store untouched: every mutation in the
source happens in a single `save()`/`create()` after all checks pass. -/
inductive ApiResult (α : Type) where
  | ok : α → ApiResult α
  | err : Nat → String → ApiResult α
  | crash : String → ApiResult α
deriving DecidableEq, Repr

def findCourse (db : Store) (cid : CourseId) : Option Course :=
  db.courses.find? (fun c => c.id == cid)

def findLesson (db : Store) (lid : LessonId) : Option Lesson :=
  db.lessons.find? (fun l => l.id == lid)

def findAssignment (db : Store) (aid : AssignmentId) : Option Assignment :=
  db.assignments.find? (fun a => a.id == aid)

def findSubmission (db : Store) (sid : SubmissionId) : Option Submission :=
  db.submissions.find? (fun s => s.id == sid)

/-- `Enrollment.objects.filter(student=..., course=...).exists()`. -/
def enrollmentExists (db : Store) (student : UserId) (course : CourseId) : Bool :=
  db.enrollments.any (fun e => e.student == student && e.course == course)

/-- `POST /api/courses/{id}/enroll/` (`CourseViewSet.enroll`): reject an
existing `(student, course)` pair with HTTP 400, else
`Enrollment.objects.create(student=student, course=course)` — remaining
fields take their model defaults (`progress=0`, `enrolled_at=auto_now_add`,
`completed_at=null`). -/
def enroll (db : Store) (caller : User) (cid : CourseId) (now : Nat) :
    ApiResult Store :=
  match findCourse db cid with
  | none => ApiResult.err 404 "Not found."
  | some _ =>
    if enrollmentExists db caller.id cid then
      ApiResult.err 400 "Вы уже записаны на этот курс."
    else
      ApiResult.ok { db with
        enrollments := db.enrollments ++
          [{ student := caller.id, course := cid, enrolled_at := now,
             progress := 0, completed_at := none }] }

/-- Create/update payload accepted by `CourseSerializer` (writable fields;
`teacher`, `students`, `created_at` are read-only; image omitted). -/
structure CoursePayload where
  name : String
  description : String
  price : Nat
  unit_of_time : String
  duration : Nat
  level : Level
  category : Category
  published : Bool
deriving DecidableEq, Repr

/-- `CourseSerializer.validate`: `data.get("price", 1) <= 0` and
`data.get("duration", 1) <= 0` are rejected (on `Nat` that is `= 0`). -/
def courseSerializerValidate (p : CoursePayload) : ApiResult CoursePayload :=
  if p.price = 0 then
    ApiResult.err 400 "Цена должна быть положительным числом."
  else if p.duration = 0 then
    ApiResult.err 400 "Длительность должна быть положительной."
  else
    ApiResult.ok p

/-- `POST /api/courses/` for an authenticated caller: the serializer's
field/object validation runs first (`is_valid(raise_exception=True)`), then
`CourseViewSet.perform_create` calls `serializer.save(teacher=request.user)`
and `CourseSerializer.create` re-reads `self.context["request"].user`,
raises `ValidationError` (HTTP 400) unless `user.is_teacher`, and overwrites
`validated_data["teacher"]` with that user before creating the row. -/
def create_course (db : Store) (caller : User) (p : CoursePayload)
    (newId : CourseId) (now : Nat) : ApiResult Store :=
  match courseSerializerValidate p with
  | ApiResult.err s m => ApiResult.err s m
  | ApiResult.crash m => ApiResult.crash m
  | ApiResult.ok p =>
    if ¬ caller.is_teacher then
      ApiResult.err 400 "Создавать курсы могут только преподаватели."
    else
      ApiResult.ok { db with
        courses := db.courses ++
          [{ id := newId, name := p.name, description := p.description,
             price := p.price, unit_of_time := p.unit_of_time,
             duration := p.duration, level := p.level,
             category := p.category, published := p.published,
             created_at := now, teacher := caller.id }] }

/-- `PUT /api/courses/{id}/` (`CourseViewSet.update`): the owning-teacher
check runs before any validation; on a non-owner it returns HTTP 403 with
`{"detail": "Только преподаватель может обновить курс."}` and no write.
Otherwise the serializer validates the full payload and saves it. -/
def update_course (db : Store) (caller : User) (cid : CourseId)
    (p : CoursePayload) : ApiResult Store :=
  match findCourse db cid with
  | none => ApiResult.err 404 "Not found."
  | some c =>
    if c.teacher ≠ caller.id then
      ApiResult.err 403 "Только преподаватель может обновить курс."
    else
      match courseSerializerValidate p with
      | ApiResult.err s m => ApiResult.err s m
      | ApiResult.crash m => ApiResult.crash m
      | ApiResult.ok p =>
        ApiResult.ok { db with
          courses := db.courses.map (fun x =>
            if x.id == cid then
              { x with name := p.name, description := p.description,
                       price := p.price, unit_of_time := p.unit_of_time,
                       duration := p.duration, level := p.level,
                       category := p.category, published := p.published }
            else x) }

/-- PATCH payload for `CourseSerializer` (every writable field optional). -/
structure CoursePatch where
  name : Option String := none
  description : Option String := none
  price : Option Nat := none
  unit_of_time : Option String := none
  duration : Option Nat := none
  level : Option Level := none
  category : Option Category := none
  published : Option Bool := none
deriving DecidableEq, Repr

/-- `CourseSerializer.validate` on a PATCH: `data.get("price", 1)` defaults
to 1 when absent, so only a supplied 0 is rejected; likewise duration. -/
def coursePatchValidate (p : CoursePatch) : ApiResult CoursePatch :=
  if p.price = some 0 then
    ApiResult.err 400 "Цена должна быть положительным числом."
  else if p.duration = some 0 then
    ApiResult.err 400 "Длительность должна быть положительной."
  else
    ApiResult.ok p

/-- `PATCH /api/courses/{id}/` (`CourseViewSet.partial_update`): same
owner check (HTTP 403, no write), then a partial save of supplied fields. -/
def patch_course (db : Store) (caller : User) (cid : CourseId)
    (p : CoursePatch) : ApiResult Store :=
  match findCourse db cid with
  | none => ApiResult.err 404 "Not found."
  | some c =>
    if c.teacher ≠ caller.id then
      ApiResult.err 403 "Только преподаватель может обновить курс."
    else
      match coursePatchValidate p with
      | ApiResult.err s m => ApiResult.err s m
      | ApiResult.crash m => ApiResult.crash m
      | ApiResult.ok p =>
        ApiResult.ok { db with
          courses := db.courses.map (fun x =>
            if x.id == cid then
              { x with name := p.name.getD x.name,
                       description := p.description.getD x.description,
                       price := p.price.getD x.price,
                       unit_of_time := p.unit_of_time.getD x.unit_of_time,
                       duration := p.duration.getD x.duration,
                       level := p.level.getD x.level,
                       category := p.category.getD x.category,
                       published := p.published.getD x.published }
            else x) }

/-- `DELETE /api/courses/{id}/` (`CourseViewSet.destroy`): owner check
(HTTP 403, no write), then `course.delete()` with `on_delete=CASCADE`
removing dependent Lessons, Assignments, Enrollments, Submissions and
Progress rows transitively. -/
def destroy_course (db : Store) (caller : User) (cid : CourseId) :
    ApiResult Store :=
  match findCourse db cid with
  | none => ApiResult.err 404 "Not found."
  | some c =>
    if c.teacher ≠ caller.id then
      ApiResult.err 403 "Только преподаватель может удалить курс."
    else
      let deadLessons := (db.lessons.filter (fun l => l.course == cid)).map
        (fun l => l.id)
      let deadAssignments :=
        (db.assignments.filter (fun a => deadLessons.contains a.lesson)).map
          (fun a => a.id)
      ApiResult.ok { db with
        courses := db.courses.filter (fun x => x.id != cid),
        lessons := db.lessons.filter (fun l => l.course != cid),
        assignments :=
          db.assignments.filter (fun a => !deadLessons.contains a.lesson),
        enrollments := db.enrollments.filter (fun e => e.course != cid),
        submissions :=
          db.submissions.filter (fun s => !deadAssignments.contains s.assignment),
        progresses :=
          db.progresses.filter (fun p => !deadLessons.contains p.lesson) }

/-- `submission.assignment.lesson.course.teacher` (the FK chain walked by
`SubmissionViewSet.grade`). -/
def submissionCourseTeacher (db : Store) (s : Submission) : Option UserId := do
  let a ← findAssignment db s.assignment
  let l ← findLesson db a.lesson
  let c ← findCourse db l.course
  pure c.teacher

/-- `SubmissionSerializer.validate_score`: reads
`self.instance.assignment.max_score`.  With no instance (a create request)
`self.instance` is `None` and the attribute access raises `AttributeError`
— an unhandled exception, not a DRF `ValidationError`.  With an instance it
rejects `value > max_score` and `value < 0` with HTTP 400. -/
def validate_score (db : Store) (inst : Option Submission) (value : Int) :
    ApiResult Int :=
  match inst with
  | none =>
    ApiResult.crash "AttributeError: NoneType object has no attribute assignment"
  | some sub =>
    match findAssignment db sub.assignment with
    | none => ApiResult.crash "Submission.assignment does not resolve"
    | some a =>
      if value > (a.max_score : Int) then
        ApiResult.err 400 ("Оценка не может превышать " ++ toString a.max_score ++ ".")
      else if value < 0 then
        ApiResult.err 400 "Оценка не может быть отрицательной."
      else
        ApiResult.ok value

/-- `PATCH /api/submissions/{id}/grade/` (`SubmissionViewSet.grade`): the
caller must be `submission.assignment.lesson.course.teacher`, else HTTP 403
and no write; then the serializer runs `validate_score` on a supplied score
(partial update, instance = the submission), and on success
`serializer.save(status="checked")` writes the supplied fields and sets
`status` to `checked` unconditionally. -/
def grade (db : Store) (caller : User) (sid : SubmissionId)
    (scoreData : Option Int) (commentData : Option String) : ApiResult Store :=
  match findSubmission db sid with
  | none => ApiResult.err 404 "Not found."
  | some sub =>
    match submissionCourseTeacher db sub with
    | none => ApiResult.crash "broken foreign-key chain"
    | some tid =>
      if tid ≠ caller.id then
        ApiResult.err 403 "Только преподаватель курса может ставить оценки."
      else
        match scoreData with
        | some v =>
          match validate_score db (some sub) v with
          | ApiResult.err s m => ApiResult.err s m
          | ApiResult.crash m => ApiResult.crash m
          | ApiResult.ok w =>
            ApiResult.ok { db with
              submissions := db.submissions.map (fun s =>
                if s.id == sid then
                  { sub with score := some w,
                             teacher_comment :=
                               match commentData with
                               | some c => some c
                               | none => sub.teacher_comment,
                             status := SubmissionStatus.checked }
                else s) }
        | none =>
          ApiResult.ok { db with
            submissions := db.submissions.map (fun s =>
              if s.id == sid then
                { sub with teacher_comment :=
                             match commentData with
                             | some c => some c
                             | none => sub.teacher_comment,
                           status := SubmissionStatus.checked }
              else s) }

/-- Create payload accepted by `SubmissionSerializer` (writable fields;
`student`, `submitted_at`, `status` are read-only). -/
structure SubmissionPayload where
  assignment : AssignmentId
  answer : String
  file : Option String := none
  score : Option Int := none
  teacher_comment : Option String := none
deriving DecidableEq, Repr

/-- `POST /api/submissions/`: DRF runs `validate_score` on a supplied score
first (with `self.instance = None`, so it crashes — see `validate_score`),
then `SubmissionSerializer.validate`, which on a create checks that the
caller holds an Enrollment in `assignment.lesson.course` and otherwise
raises `ValidationError` (HTTP 400).  When validation passes,
`serializer.save()` runs `Submission.objects.create(**validated_data)`:
`student` is in `read_only_fields` so it is absent from `validated_data`,
and `SubmissionViewSet` defines no `perform_create` to supply it, so the
INSERT violates the non-nullable student foreign key and raises an
unhandled `IntegrityError` (HTTP 500) — no Submission row is ever
created through this endpoint.  (`now`/`newId` are the values the row
would have used; they are unreachable.) -/
def create_submission (db : Store) (caller : User) (p : SubmissionPayload)
    (_now : Nat) (_newId : SubmissionId) : ApiResult Store :=
  match p.score with
  | some v =>
    match validate_score db none v with
    | ApiResult.ok _ => ApiResult.crash "unreachable"
    | ApiResult.err s m => ApiResult.err s m
    | ApiResult.crash m => ApiResult.crash m
  | none =>
    match findAssignment db p.assignment with
    | none => ApiResult.err 400 "Недопустимый первичный ключ задания."
    | some a =>
      match findLesson db a.lesson with
      | none => ApiResult.crash "Assignment.lesson does not resolve"
      | some l =>
        if ¬ enrollmentExists db caller.id l.course then
          ApiResult.err 400
            "Вы не записаны на курс, поэтому не можете отправить решение."
        else
          ApiResult.crash
            "IntegrityError: NOT NULL constraint failed: courses_submission.student_id"

/-- The spec's `submit(assignment, student, answer, file?)` operation: a
create-submission request whose payload carries no score. -/
def submit (db : Store) (caller : User) (aid : AssignmentId) (answer : String)
    (file : Option String) (now : Nat) (newId : SubmissionId) :
    ApiResult Store :=
  create_submission db caller
    { assignment := aid, answer := answer, file := file } now newId

/-- `course.lessons.count()`. -/
def lessonsCount (db : Store) (cid : CourseId) : Nat :=
  (db.lessons.filter (fun l => l.course == cid)).length

/-- `Progress.objects.filter(student=student, lesson__course=course,
completed=True).count()`. -/
def completedCount (db : Store) (student : UserId) (cid : CourseId) : Nat :=
  (db.progresses.filter (fun p =>
    p.student == student && p.completed &&
      ((findLesson db p.lesson).map (fun l => l.course) == some cid))).length

/-- Floor of a rational, computed by floor division of numerator by
denominator (kernel-evaluable, unlike the `FloorRing` instance). -/
def ratFloor (q : ℚ) : ℤ :=
  q.num.fdiv q.den

/-- Python's `round(x, 2)` on an exact rational: round to the nearest
multiple of 1/100 (half rounded up; Python breaks exact halves to even,
which differs only on exact .005 ties — no claim depends on a tie). -/
def round2 (q : ℚ) : ℚ :=
  ((ratFloor (q * 100 + 1 / 2) : ℤ) : ℚ) / 100

/-- `GET /api/courses/{id}/progress/` (`CourseViewSet.progress`), the
`"progress"` field of the response:
`percent = (completed_count / lessons_count * 100) if lessons_count > 0
else 0`, then `round(percent, 2)`. -/
def course_progress (db : Store) (student : UserId) (cid : CourseId) : ℚ :=
  let lessons_count := lessonsCount db cid
  let completed_count := completedCount db student cid
  let percent : ℚ :=
    if lessons_count > 0 then
      (completed_count : ℚ) / (lessons_count : ℚ) * 100
    else 0
  round2 percent

/-- `Count("enrollments")` annotation (`students_count`). -/
def enrollmentCount (db : Store) (cid : CourseId) : Nat :=
  (db.enrollments.filter (fun e => e.course == cid)).length

/-- `GET /api/courses/q_courses_complex/` (`CourseViewSet.q_courses_complex`):
`(Q(level="beginner", category="programming", price__lte=5000)
 | Q(students_count__gt=100)) & Q(published=True) & ~Q(price=0)`. -/
def q_courses_complex (db : Store) : List Course :=
  db.courses.filter (fun c =>
    ((c.level == Level.beginner && c.category == Category.programming &&
        c.price ≤ 5000)
      || enrollmentCount db c.id > 100)
    && c.published
    && !(c.price == 0))

/-- PATCH/POST payload accepted by `LessonSerializer` (on create every
field is required and present; on a partial update each is optional). -/
structure LessonPayload where
  course : Option CourseId := none
  name : Option String := none
  description : Option String := none
  content : Option String := none
  link_to_video : Option String := none
  duration : Option ℚ := none
  serial_number : Option Nat := none
deriving DecidableEq, Repr

/-- `serial = data.get("serial_number") or self.instance.serial_number`:
Python's `or` falls back not only when the key is absent but also when the
supplied value is falsy — and the integer 0 is falsy.  `none` = the fallback
itself was needed on a `None` instance (an `AttributeError`). -/
def serialOrInstance (dataSerial : Option Nat) (inst : Option Lesson) :
    Option Nat :=
  match dataSerial with
  | some v =>
    if v ≠ 0 then some v
    else inst.map (fun i => i.serial_number)
  | none => inst.map (fun i => i.serial_number)

/-- `course = data.get("course") or self.instance.course` (a supplied course
is a model instance, truthy whenever present). -/
def courseOrInstance (dataCourse : Option CourseId) (inst : Option Lesson) :
    Option CourseId :=
  match dataCourse with
  | some c => some c
  | none => inst.map (fun i => i.course)

/-- `LessonSerializer.validate`: resolve course and serial number (with the
falsy-`or` fallback above), then reject if
`Lesson.objects.filter(course=course, serial_number=serial)
 .exclude(id=self.instance.id if self.instance else None).exists()`. -/
def lessonSerializerValidate (db : Store) (inst : Option Lesson)
    (p : LessonPayload) : ApiResult Unit :=
  match courseOrInstance p.course inst with
  | none =>
    ApiResult.crash "AttributeError: NoneType object has no attribute course"
  | some course =>
    match serialOrInstance p.serial_number inst with
    | none =>
      ApiResult.crash
        "AttributeError: NoneType object has no attribute serial_number"
    | some serial =>
      if db.lessons.any (fun l =>
          l.course == course && l.serial_number == serial &&
            (match inst with
             | some i => l.id != i.id
             | none => true)) then
        ApiResult.err 400
          "Порядковый номер урока должен быть уникальным в рамках курса."
      else
        ApiResult.ok ()

/-- Create through `LessonSerializer` (every field supplied): validation,
then the row is written with the payload's own values. -/
def lesson_create (db : Store) (p : LessonPayload) (newId : LessonId) :
    ApiResult Store :=
  match lessonSerializerValidate db none p with
  | ApiResult.err s m => ApiResult.err s m
  | ApiResult.crash m => ApiResult.crash m
  | ApiResult.ok _ =>
    match p.course, p.serial_number with
    | some course, some serial =>
      ApiResult.ok { db with
        lessons := db.lessons ++
          [{ id := newId, course := course, name := p.name.getD "",
             description := p.description.getD "",
             content := p.content.getD "",
             link_to_video := p.link_to_video,
             duration := p.duration.getD 0, serial_number := serial }] }
    | _, _ => ApiResult.err 400 "Обязательное поле."

/-- Partial update through `LessonSerializer`: validation with
`self.instance` set, then `serializer.save()` writes the *raw* supplied
values from `validated_data` (not the falsy-coalesced ones used by the
uniqueness check). -/
def lesson_patch (db : Store) (lid : LessonId) (p : LessonPayload) :
    ApiResult Store :=
  match findLesson db lid with
  | none => ApiResult.err 404 "Not found."
  | some l =>
    match lessonSerializerValidate db (some l) p with
    | ApiResult.err s m => ApiResult.err s m
    | ApiResult.crash m => ApiResult.crash m
    | ApiResult.ok _ =>
      ApiResult.ok { db with
        lessons := db.lessons.map (fun x =>
          if x.id == lid then
            { x with course := p.course.getD x.course,
                     name := p.name.getD x.name,
                     description := p.description.getD x.description,
                     content := p.content.getD x.content,
                     link_to_video :=
                       match p.link_to_video with
                       | some v => some v
                       | none => x.link_to_video,
                     duration := p.duration.getD x.duration,
                     serial_number := p.serial_number.getD x.serial_number }
          else x) }

/-- The invariant claimed for lessons: within one course, serial numbers of
distinct lessons are pairwise distinct. -/
def serialNumbersUniquePerCourse (db : Store) : Bool :=
  db.lessons.all (fun l1 => db.lessons.all (fun l2 =>
    l1.id == l2.id ||
      !(l1.course == l2.course && l1.serial_number == l2.serial_number)))

/-- HTTP-status test: is this result a 403 Forbidden response? -/
def isForbidden {α : Type} : ApiResult α → Bool
  | ApiResult.err 403 _ => true
  | _ => false

/-- HTTP-status test: is this result a 409 Conflict response? -/
def isConflict {α : Type} : ApiResult α → Bool
  | ApiResult.err 409 _ => true
  | _ => false

/-- HTTP-status test: is this result a 400 ValidationError response? -/
def isValidationError {α : Type} : ApiResult α → Bool
  | ApiResult.err 400 _ => true
  | _ => false

/-- Is this result an unhandled exception (HTTP 500)? -/
def isCrash {α : Type} : ApiResult α → Bool
  | ApiResult.crash _ => true
  | _ => false

/-! ## Concrete fixtures (used by witnesses and counterexamples) -/

def uTeacher : User := ⟨1, Role.teacher⟩

def uStudent : User := ⟨2, Role.student⟩

/-- A second teacher, not the owner of `course1`. -/
def uOther : User := ⟨3, Role.teacher⟩

def course1 : Course :=
  ⟨1, "Python с нуля", "Базовый курс", 1000, "weeks", 4, Level.beginner,
   Category.programming, true, 0, 1⟩

def lessonA : Lesson := ⟨1, 1, "Введение", "Первый урок", "Текст", none, 1, 1⟩

def lessonB : Lesson := ⟨2, 1, "Переменные", "Второй урок", "Текст", none, 1, 2⟩

def assignment1 : Assignment := ⟨1, 1, "Домашнее задание", "Решите", 100, 50⟩

def submission1 : Submission :=
  ⟨1, 1, 2, "Моё решение", none, some 0, none, 10, SubmissionStatus.pending⟩

def baseDb : Store :=
  ⟨[uTeacher, uStudent, uOther], [course1], [lessonA, lessonB], [assignment1],
   [], [], []⟩

def enrolledDb : Store :=
  { baseDb with enrollments := [⟨2, 1, 5, 0, none⟩] }

def gradeDb : Store :=
  { enrolledDb with submissions := [submission1] }

def examplePayload : CoursePayload :=
  ⟨"Django", "Курс по Django", 2500, "weeks", 6, Level.beginner,
   Category.programming, true⟩

def freeCourse : Course :=
  ⟨10, "Бесплатный курс", "Python для новичков", 0, "weeks", 2,
   Level.beginner, Category.programming, true, 0, 1⟩

def hiddenCourse : Course :=
  ⟨11, "Черновик", "Не опубликован", 2000, "weeks", 6, Level.advanced,
   Category.design, false, 0, 1⟩

def includedCourse : Course :=
  ⟨12, "Python", "Платный курс", 3000, "weeks", 4, Level.beginner,
   Category.programming, true, 0, 1⟩

/-- Fixture for the compound filter: a free beginner/programming course, a
paid unpublished course with 101 enrollments, and a paid published
beginner/programming course. -/
def filterFixtureDb : Store :=
  { baseDb with
    courses := [freeCourse, hiddenCourse, includedCourse],
    enrollments := (List.range 101).map (fun i =>
      ⟨100 + i, 11, 0, 0, none⟩) }

/-- Fixture for course progress: student 2 completed both lessons of
course 1. -/
def progressDb : Store :=
  { baseDb with
    progresses := [⟨2, 1, true, some 20⟩, ⟨2, 2, true, some 21⟩] }

def lessonDb1 : Store :=
  { baseDb with lessons := [{ lessonA with serial_number := 0 }, lessonB] }

def lessonDb2 : Store :=
  { baseDb with lessons := [{ lessonA with serial_number := 0 },
                            { lessonB with serial_number := 0 }] }

/-- Course-side predicate of claim C4, written from the claim's own words:
((level=beginner AND category=programming AND price≤5000) OR
enrollment_count>100) AND published=true AND price≠0. -/
def specComplexFilter (db : Store) (c : Course) : Prop :=
  ((c.level = Level.beginner ∧ c.category = Category.programming ∧
      c.price ≤ 5000) ∨ enrollmentCount db c.id > 100)
  ∧ c.published = true ∧ c.price ≠ 0

/-- Progress formula of claim C5, written from the claim's own words:
(completed lessons)/(total lessons) × 100 rounded to 2 decimals, and 0 (not
an error) when the course has zero lessons. -/
def specCourseProgress (db : Store) (student : UserId) (cid : CourseId) : ℚ :=
  if lessonsCount db cid = 0 then 0
  else
    round2 ((completedCount db student cid : ℚ) /
      (lessonsCount db cid : ℚ) * 100)

/-- Proof-side name for the store produced by a successful grade: the
submission with the given id replaced by `N` (definitionally equal to the
record update performed in `grade`). -/
def replaceStore (db : Store) (sid : SubmissionId) (N : Submission) : Store :=
  { db with
    submissions := db.submissions.map (fun s =>
      if s.id == sid then N else s) }

/-- Proof-side name for the submission written by a successful grade
(definitionally equal to the record update performed in `grade`). -/
def gradedSub (sub : Submission) (sc : Option Int) (cm : Option String) :
    Submission :=
  { sub with
    score :=
      match sc with
      | some v => some v
      | none => sub.score,
    teacher_comment :=
      match cm with
      | some c => some c
      | none => sub.teacher_comment,
    status := SubmissionStatus.checked }

/-! ## Helper lemmas -/

/-- Replacing every element matched by `p` with a fixed `s'` (itself matched
by `p`) moves `find?` to `s'` exactly when the original `find?` succeeded. -/
theorem find_replace_eq {α : Type} (p : α → Bool) (s' : α) (hs : p s' = true)
    (l : List α) :
    List.find? p (l.map (fun x => if p x then s' else x)) =
      (List.find? p l).map (fun _ => s') := by
  induction l with
  | nil => rfl
  | cons a t ih =>
    by_cases ha : p a = true
    · simp [List.find?, ha, hs]
    · simp only [Bool.not_eq_true] at ha
      simp [List.find?, ha, ih]

/-- The element-wise replacement map of `find_replace_eq` is idempotent. -/
theorem map_replace_idem {α : Type} (p : α → Bool) (s' : α) (hs : p s' = true)
    (l : List α) :
    (l.map (fun x => if p x then s' else x)).map
        (fun x => if p x then s' else x) =
      l.map (fun x => if p x then s' else x) := by
  rw [List.map_map]
  apply List.map_congr_left
  intro x _
  by_cases hx : p x = true
  · simp [Function.comp, hx, hs]
  · simp only [Bool.not_eq_true] at hx
    simp [Function.comp, hx]

/-- After replacing the matched submission by `N`, looking the id up again
finds `N`. -/
theorem findSubmission_replaceStore (db : Store) (sid : SubmissionId)
    (N : Submission) (hN : (N.id == sid) = true) (sub : Submission)
    (hf : db.submissions.find? (fun s => s.id == sid) = some sub) :
    findSubmission (replaceStore db sid N) sid = some N := by
  dsimp only [replaceStore, findSubmission]
  rw [find_replace_eq (fun s : Submission => s.id == sid) N hN, hf]
  rfl

/-- `replaceStore` leaves the assignment/lesson/course tables alone, so the
teacher lookup is unchanged. -/
theorem submissionCourseTeacher_replaceStore (db : Store)
    (sid : SubmissionId) (N : Submission) (s : Submission) :
    submissionCourseTeacher (replaceStore db sid N) s =
      submissionCourseTeacher db s := rfl

/-- Regrading writes the same submission value again. -/
theorem gradedSub_idem (sub : Submission) (sc : Option Int)
    (cm : Option String) :
    gradedSub (gradedSub sub sc cm) sc cm = gradedSub sub sc cm := by
  cases sc <;> cases cm <;> rfl

/-- Replacing by the same `N` twice equals replacing once. -/
theorem replaceStore_idem (db : Store) (sid : SubmissionId) (N : Submission)
    (hN : (N.id == sid) = true) :
    replaceStore (replaceStore db sid N) sid N = replaceStore db sid N := by
  dsimp only [replaceStore]
  rw [map_replace_idem (fun s : Submission => s.id == sid) N hN]

/-- Successful grade with a score payload, written with the proof-side
names `replaceStore`/`gradedSub`. -/
theorem grade_ok_some (db : Store) (caller : User) (sid : SubmissionId)
    (v : Int) (cm : Option String) (sub : Submission) (a : Assignment)
    (hsub : findSubmission db sid = some sub)
    (hT : submissionCourseTeacher db sub = some caller.id)
    (hA : findAssignment db sub.assignment = some a)
    (h1 : ¬ v > (a.max_score : Int)) (h2 : ¬ v < 0) :
    grade db caller sid (some v) cm =
      ApiResult.ok (replaceStore db sid (gradedSub sub (some v) cm)) := by
  simp only [grade, hsub, hT, validate_score, hA]
  rw [if_neg h1, if_neg h2]
  simp [replaceStore, gradedSub]

/-- Successful grade without a score payload, written with the proof-side
names `replaceStore`/`gradedSub`. -/
theorem grade_ok_none (db : Store) (caller : User) (sid : SubmissionId)
    (cm : Option String) (sub : Submission)
    (hsub : findSubmission db sid = some sub)
    (hT : submissionCourseTeacher db sub = some caller.id) :
    grade db caller sid none cm =
      ApiResult.ok (replaceStore db sid (gradedSub sub none cm)) := by
  simp [grade, hsub, hT, replaceStore, gradedSub]

/-- `ratFloor` agrees with Mathlib's floor on ℚ. -/
theorem ratFloor_eq_floor (q : ℚ) : ratFloor q = ⌊q⌋ := by
  rw [Rat.floor_def, ratFloor, Int.fdiv_eq_ediv _ (by positivity)]

theorem round2_zero : round2 0 = 0 := by
  norm_num [round2, ratFloor_eq_floor]

theorem round2_hundred : round2 100 = 100 := by
  norm_num [round2, ratFloor_eq_floor]

/-! ## Claims -/

/-- C2 (counterexample): a student's create-course request is rejected by
`CourseSerializer.create` with a DRF `ValidationError` (HTTP 400), not with
`Forbidden` (HTTP 403), so the claim's stated error kind is wrong at this
input. -/
theorem C2_counterexample :
    create_course baseDb uStudent examplePayload 10 0 =
      ApiResult.err 400 "Создавать курсы могут только преподаватели." ∧
    isForbidden (create_course baseDb uStudent examplePayload 10 0) = false :=
  ⟨by decide, by decide⟩

/-- C2 (amended): for every caller whose role is not teacher, create-course
fails with a ValidationError-kind response (HTTP 400) — never reaching a
successful write, so no Course is created — and whenever create-course does
succeed the caller's role is teacher and the single appended Course is owned
by the caller (never an arbitrary existing teacher). -/
theorem C2_create_course_role_check (db : Store) (u : User) (p : CoursePayload)
    (i : CourseId) (t : Nat) :
    (u.role ≠ Role.teacher →
      isValidationError (create_course db u p i t) = true) ∧
    (∀ db', create_course db u p i t = ApiResult.ok db' →
      u.role = Role.teacher ∧
      db'.courses = db.courses ++
        [{ id := i, name := p.name, description := p.description,
           price := p.price, unit_of_time := p.unit_of_time,
           duration := p.duration, level := p.level, category := p.category,
           published := p.published, created_at := t, teacher := u.id }]) := by
  constructor
  · intro h
    by_cases hp : p.price = 0
    · simp [create_course, courseSerializerValidate, hp, isValidationError]
    · by_cases hd : p.duration = 0
      · simp [create_course, courseSerializerValidate, hp, hd,
          isValidationError]
      · have ht : u.is_teacher = false := by
          cases hu : u.role with
          | teacher => exact absurd hu h
          | student => simp [User.is_teacher, hu]
        simp [create_course, courseSerializerValidate, hp, hd, ht,
          isValidationError]
  · intro db' h
    by_cases hp : p.price = 0
    · simp [create_course, courseSerializerValidate, hp] at h
    · by_cases hd : p.duration = 0
      · simp [create_course, courseSerializerValidate, hp, hd] at h
      · by_cases ht : u.is_teacher = true
        · have hrole : u.role = Role.teacher := by
            have := ht
            simp only [User.is_teacher, beq_iff_eq] at this
            exact this
          refine ⟨hrole, ?_⟩
          simp [create_course, courseSerializerValidate, hp, hd, ht] at h
          exact h.symm ▸ rfl
        · simp only [Bool.not_eq_true] at ht
          simp [create_course, courseSerializerValidate, hp, hd, ht] at h

/-- C2 (witness): the role-check clause applied to the concrete student
caller. -/
theorem C2_witness :
    isValidationError (create_course baseDb uStudent examplePayload 10 0) =
      true :=
  (C2_create_course_role_check baseDb uStudent examplePayload 10 0).1
    (by decide)

/-- C3 (counterexample): a first enroll succeeds and a second enroll for the
same (student, course) pair is rejected — but with HTTP 400 Bad Request,
not with a Conflict-kind (HTTP 409) response as the claim states. -/
theorem C3_counterexample :
    enroll baseDb uStudent 1 5 = ApiResult.ok enrolledDb ∧
    enroll enrolledDb uStudent 1 6 =
      ApiResult.err 400 "Вы уже записаны на этот курс." ∧
    isConflict (enroll enrolledDb uStudent 1 6) = false :=
  ⟨by decide, by decide, by decide⟩

/-- C3 (amended): for an existing course, a first enroll call appends
exactly one Enrollment with progress=0, enrolled_at=now, completed_at=null,
and a second call for the same (student, course) pair fails with an HTTP
400 Bad Request response (the same machine-checkable kind as validation
errors, not a distinct Conflict) and creates nothing. -/
theorem C3_enroll_unique_pair (db : Store) (u : User) (cid : CourseId)
    (now : Nat) (c : Course) (hc : findCourse db cid = some c) :
    (enrollmentExists db u.id cid = false →
      enroll db u cid now = ApiResult.ok { db with
        enrollments := db.enrollments ++
          [{ student := u.id, course := cid, enrolled_at := now,
             progress := 0, completed_at := none }] }) ∧
    (enrollmentExists db u.id cid = true →
      enroll db u cid now = ApiResult.err 400 "Вы уже записаны на этот курс." ∧
      isValidationError (enroll db u cid now) = true) := by
  constructor
  · intro h
    simp [enroll, hc, h]
  · intro h
    constructor
    · simp [enroll, hc, h]
    · simp [enroll, hc, h, isValidationError]

/-- C3 (witness): the duplicate-pair clause applied to the concrete
already-enrolled fixture. -/
theorem C3_witness :
    enroll enrolledDb uStudent 1 6 =
      ApiResult.err 400 "Вы уже записаны на этот курс." ∧
    isValidationError (enroll enrolledDb uStudent 1 6) = true :=
  (C3_enroll_unique_pair enrolledDb uStudent 1 6 course1 (by decide)).2
    (by decide)

/-- C4: the compound course filter returns exactly the courses satisfying
((level=beginner ∧ category=programming ∧ price≤5000) ∨
enrollment_count>100) ∧ published ∧ price≠0; on the fixture set the free
beginner/programming course and the paid unpublished highly-enrolled course
are excluded, while a paid published beginner/programming course is kept. -/
theorem C4_complex_filter (db : Store) (c : Course) :
    (c ∈ q_courses_complex db ↔ c ∈ db.courses ∧ specComplexFilter db c) ∧
    freeCourse ∉ q_courses_complex filterFixtureDb ∧
    hiddenCourse ∉ q_courses_complex filterFixtureDb ∧
    includedCourse ∈ q_courses_complex filterFixtureDb := by
  refine ⟨?_, by decide, by decide, by decide⟩
  simp only [q_courses_complex, specComplexFilter, List.mem_filter,
    Bool.and_eq_true, Bool.or_eq_true, Bool.not_eq_true', beq_iff_eq,
    decide_eq_true_eq, Nat.decLt, and_congr_right_iff]
  intro _
  constructor
  · rintro ⟨⟨h1 | h2, hpub⟩, hfree⟩
    · exact ⟨Or.inl ⟨by simpa using h1.1.1, by simpa using h1.1.2,
        by simpa using h1.2⟩, hpub, by simpa using hfree⟩
    · exact ⟨Or.inr (by simpa using h2), hpub, by simpa using hfree⟩
  · rintro ⟨h1 | h2, hpub, hfree⟩
    · exact ⟨⟨Or.inl (by simp [h1.1, h1.2.1, h1.2.2]), hpub⟩,
        by simpa using hfree⟩
    · exact ⟨⟨Or.inr (by simpa using h2), hpub⟩, by simpa using hfree⟩

/-- C4 (witness): the set-characterisation applied to the included fixture
course. -/
theorem C4_witness :
    includedCourse ∈ q_courses_complex filterFixtureDb ↔
      includedCourse ∈ filterFixtureDb.courses ∧
        specComplexFilter filterFixtureDb includedCourse :=
  (C4_complex_filter filterFixtureDb includedCourse).1

/-- C5: the derived course-progress percent equals the claim's formula
(completed lessons / total lessons × 100, rounded to 2 decimals); it is 0
with no completed lessons, 100 with all lessons completed, and 0 — not an
error — for a course with zero lessons. -/
theorem C5_course_progress_formula (db : Store) (u : UserId)
    (cid : CourseId) :
    course_progress db u cid = specCourseProgress db u cid ∧
    (completedCount db u cid = 0 → course_progress db u cid = 0) ∧
    (lessonsCount db cid ≠ 0 → completedCount db u cid = lessonsCount db cid →
      course_progress db u cid = 100) ∧
    (lessonsCount db cid = 0 → course_progress db u cid = 0) := by
  refine ⟨?_, ?_, ?_, ?_⟩
  · by_cases h : lessonsCount db cid = 0
    · simp [course_progress, specCourseProgress, h, round2_zero]
    · simp [course_progress, specCourseProgress, h, Nat.pos_of_ne_zero h]
  · intro h
    by_cases hl : lessonsCount db cid = 0
    · simp [course_progress, hl, round2_zero]
    · simp [course_progress, h, Nat.pos_of_ne_zero hl, round2_zero]
  · intro hl hc
    have hpos : 0 < lessonsCount db cid := Nat.pos_of_ne_zero hl
    have hq : (lessonsCount db cid : ℚ) ≠ 0 := Nat.cast_ne_zero.mpr hl
    simp only [course_progress, hc, if_pos hpos, div_self hq, one_mul]
    exact round2_hundred
  · intro h
    simp [course_progress, h, round2_zero]

/-- C5 (witness): all-lessons-completed clause on the concrete fixture
(student 2 completed both lessons of course 1). -/
theorem C5_witness : course_progress progressDb 2 1 = 100 :=
  (C5_course_progress_formula progressDb 2 1).2.2.1 (by decide) (by decide)

/-- C6 (failing input): starting from lessons with serial numbers 1 and 2
in the same course, two PATCH updates each setting serial_number to 0 are
both accepted — Python's falsy `or` in `LessonSerializer.validate` makes
the uniqueness check test the instance's *old* serial number whenever the
supplied value is 0 — leaving two lessons of one course with the same
serial_number and raising no ValidationError. -/
theorem C6_duplicate_serial_accepted :
    serialNumbersUniquePerCourse baseDb = true ∧
    lesson_patch baseDb 1 { serial_number := some 0 } =
      ApiResult.ok lessonDb1 ∧
    lesson_patch lessonDb1 2 { serial_number := some 0 } =
      ApiResult.ok lessonDb2 ∧
    serialNumbersUniquePerCourse lessonDb2 = false :=
  ⟨by decide, by decide, by decide, by decide⟩

/-- C7 (counterexample): the claim fails at both of its concrete cases. A
student without an Enrollment in the assignment's course is rejected by
`SubmissionSerializer.validate` with a DRF ValidationError (HTTP 400), not
with Forbidden (HTTP 403) as the claim states; and an *enrolled* student's
valid submit does not create a pending Submission either — `student` is
read-only, no `perform_create` supplies it, and the save dies in an
unhandled IntegrityError. -/
theorem C7_counterexample :
    submit baseDb uStudent 1 "Моё решение" none 7 5 =
      ApiResult.err 400
        "Вы не записаны на курс, поэтому не можете отправить решение." ∧
    isForbidden (submit baseDb uStudent 1 "Моё решение" none 7 5) = false ∧
    submit enrolledDb uStudent 1 "Моё решение" none 7 5 =
      ApiResult.crash
        "IntegrityError: NOT NULL constraint failed: courses_submission.student_id" ∧
    isCrash (submit enrolledDb uStudent 1 "Моё решение" none 7 5) = true :=
  ⟨by decide, by decide, by decide, by decide⟩

/-- C7 (amended): submit never creates a Submission. A student without an
Enrollment in the assignment's course is rejected with a DRF
ValidationError (HTTP 400, not Forbidden); an enrolled student passes
validation, but `serializer.save()` omits the read-only non-nullable
student field (`SubmissionViewSet` has no `perform_create` to supply it),
so the request fails with an unhandled IntegrityError (HTTP 500).  In
every case no Submission row is written. -/
theorem C7_submit_never_creates (db : Store) (u : User)
    (aid : AssignmentId) (ans : String) (f : Option String) (now : Nat)
    (nid : SubmissionId) (a : Assignment) (l : Lesson)
    (ha : findAssignment db aid = some a)
    (hl : findLesson db a.lesson = some l) :
    (enrollmentExists db u.id l.course = false →
      submit db u aid ans f now nid =
        ApiResult.err 400
          "Вы не записаны на курс, поэтому не можете отправить решение." ∧
      isForbidden (submit db u aid ans f now nid) = false ∧
      isValidationError (submit db u aid ans f now nid) = true) ∧
    (enrollmentExists db u.id l.course = true →
      submit db u aid ans f now nid =
        ApiResult.crash
          "IntegrityError: NOT NULL constraint failed: courses_submission.student_id") ∧
    (∀ db', submit db u aid ans f now nid ≠ ApiResult.ok db') := by
  refine ⟨?_, ?_, ?_⟩
  · intro h
    refine ⟨?_, ?_, ?_⟩
    · simp [submit, create_submission, ha, hl, h]
    · simp [submit, create_submission, ha, hl, h, isForbidden]
    · simp [submit, create_submission, ha, hl, h, isValidationError]
  · intro h
    simp [submit, create_submission, ha, hl, h]
  · intro db'
    by_cases h : enrollmentExists db u.id l.course = true
    · simp [submit, create_submission, ha, hl, h]
    · simp only [Bool.not_eq_true] at h
      simp [submit, create_submission, ha, hl, h]

/-- C7 (witness): the enrolled-student clause applied to the concrete
fixture — the request crashes instead of creating a Submission. -/
theorem C7_witness :
    submit enrolledDb uStudent 1 "Моё решение" none 7 5 =
      ApiResult.crash
        "IntegrityError: NOT NULL constraint failed: courses_submission.student_id" :=
  (C7_submit_never_creates enrolledDb uStudent 1 "Моё решение" none 7 5
      assignment1 lessonA (by decide) (by decide)).2.1 (by decide)

/-- C8: a caller who is not the course's owning teacher gets HTTP 403
Forbidden from update, partial-update and delete, and a caller who is not
`submission.assignment.lesson.course.teacher` gets HTTP 403 from grade; an
error response carries no write, so the Course and Submission stay
unchanged. -/
theorem C8_owner_only_mutation (db : Store) (caller : User) (cid : CourseId)
    (p : CoursePayload) (pp : CoursePatch) (sid : SubmissionId)
    (sc : Option Int) (cm : Option String) (c : Course) (sub : Submission)
    (t : UserId) (hc : findCourse db cid = some c)
    (hne : c.teacher ≠ caller.id) (hsub : findSubmission db sid = some sub)
    (ht : submissionCourseTeacher db sub = some t) (hts : t ≠ caller.id) :
    update_course db caller cid p =
      ApiResult.err 403 "Только преподаватель может обновить курс." ∧
    patch_course db caller cid pp =
      ApiResult.err 403 "Только преподаватель может обновить курс." ∧
    destroy_course db caller cid =
      ApiResult.err 403 "Только преподаватель может удалить курс." ∧
    grade db caller sid sc cm =
      ApiResult.err 403 "Только преподаватель курса может ставить оценки." := by
  refine ⟨?_, ?_, ?_, ?_⟩
  · simp [update_course, hc, hne]
  · simp [patch_course, hc, hne]
  · simp [destroy_course, hc, hne]
  · simp [grade, hsub, ht, hts]

/-- C8 (witness): the four ownership rejections for the non-owner teacher
`uOther` on the concrete fixture. -/
theorem C8_witness :
    update_course gradeDb uOther 1 examplePayload =
      ApiResult.err 403 "Только преподаватель может обновить курс." ∧
    patch_course gradeDb uOther 1 {} =
      ApiResult.err 403 "Только преподаватель может обновить курс." ∧
    destroy_course gradeDb uOther 1 =
      ApiResult.err 403 "Только преподаватель может удалить курс." ∧
    grade gradeDb uOther 1 (some 50) none =
      ApiResult.err 403 "Только преподаватель курса может ставить оценки." :=
  C8_owner_only_mutation gradeDb uOther 1 examplePayload {} 1 (some 50) none
    course1 submission1 1 (by decide) (by decide) (by decide) (by decide)
    (by decide)

/-- C1: when the course's teacher grades a submission with a score payload,
success implies the stored score is the supplied value and satisfies
0 ≤ score ≤ assignment.max_score, while a score above max_score or below 0
is rejected with a DRF ValidationError (HTTP 400); an error response
carries no write, so the prior score is retained. -/
theorem C1_grade_score_bounds (db : Store) (caller : User)
    (sid : SubmissionId) (v : Int) (cm : Option String) (sub : Submission)
    (a : Assignment) (hsub : findSubmission db sid = some sub)
    (ha : findAssignment db sub.assignment = some a)
    (ht : submissionCourseTeacher db sub = some caller.id) :
    (∀ db', grade db caller sid (some v) cm = ApiResult.ok db' →
      0 ≤ v ∧ v ≤ (a.max_score : Int) ∧
      (findSubmission db' sid).map (fun s => s.score) = some (some v)) ∧
    (v > (a.max_score : Int) →
      grade db caller sid (some v) cm =
        ApiResult.err 400
          ("Оценка не может превышать " ++ toString a.max_score ++ ".")) ∧
    (v < 0 → v ≤ (a.max_score : Int) →
      grade db caller sid (some v) cm =
        ApiResult.err 400 "Оценка не может быть отрицательной.") := by
  have hsub' : db.submissions.find? (fun s => s.id == sid) = some sub := hsub
  have hid : (sub.id == sid) = true := by
    simpa using
      List.find?_some (p := fun s => s.id == sid) (l := db.submissions)
        (a := sub) hsub'
  refine ⟨?_, ?_, ?_⟩
  · intro db' h
    by_cases h1 : v > (a.max_score : Int)
    · simp [grade, hsub, ht, validate_score, ha, h1] at h
    · by_cases h2 : v < 0
      · simp [grade, hsub, ht, validate_score, ha, h1, h2] at h
      · refine ⟨le_of_not_lt h2, le_of_not_lt h1, ?_⟩
        simp only [grade, hsub, ht, validate_score, ha] at h
        rw [if_neg h1, if_neg h2] at h
        simp only [ne_eq, not_true_eq_false, if_false, ite_false,
          reduceCtorEq, ApiResult.ok.injEq] at h
        subst h
        dsimp only [findSubmission]
        rw [find_replace_eq (fun s : Submission => s.id == sid)
          { sub with score := some v,
                     teacher_comment :=
                       match cm with
                       | some c => some c
                       | none => sub.teacher_comment,
                     status := SubmissionStatus.checked } hid]
        rw [hsub']
        rfl
  · intro h1
    simp [grade, hsub, ht, validate_score, ha, h1]
  · intro h2 hle
    have h1 : ¬ v > (a.max_score : Int) := not_lt.mpr hle
    simp [grade, hsub, ht, validate_score, ha, h1, h2]

/-- C1 (witness): grading the fixture submission with 150 > max_score 100
is rejected with the 400 response. -/
theorem C1_witness :
    grade gradeDb uTeacher 1 (some 150) none =
      ApiResult.err 400
        ("Оценка не может превышать " ++ toString assignment1.max_score ++
          ".") :=
  (C1_grade_score_bounds gradeDb uTeacher 1 150 none submission1 assignment1
    (by decide) (by decide) (by decide)).2.1 (by decide)

/-- C9: every successful grade sets the Submission's status to `checked`
unconditionally, whatever the prior status (including already-checked
submissions, since the input store is arbitrary); and grading the result
again with the same score and comment succeeds and returns the identical
store — regrading is idempotent in effect. -/
theorem C9_grade_checked_idempotent (db db1 : Store) (caller : User)
    (sid : SubmissionId) (sc : Option Int) (cm : Option String)
    (h : grade db caller sid sc cm = ApiResult.ok db1) :
    (findSubmission db1 sid).map (fun s => s.status) =
      some SubmissionStatus.checked ∧
    grade db1 caller sid sc cm = ApiResult.ok db1 := by
  cases hf : findSubmission db sid with
  | none => simp [grade, hf] at h
  | some sub =>
    have hf' : db.submissions.find? (fun s => s.id == sid) = some sub := hf
    have hid : (sub.id == sid) = true := by
      simpa using
        List.find?_some (p := fun s => s.id == sid) (l := db.submissions)
          (a := sub) hf'
    cases hT : submissionCourseTeacher db sub with
    | none => simp [grade, hf, hT] at h
    | some t =>
      by_cases htc : t = caller.id
      · subst htc
        cases sc with
        | none =>
          have hgid : ((gradedSub sub none cm).id == sid) = true := hid
          rw [grade_ok_none db caller sid cm sub hf hT] at h
          injection h with h'
          subst h'
          have hs2 : findSubmission
              (replaceStore db sid (gradedSub sub none cm)) sid =
              some (gradedSub sub none cm) :=
            findSubmission_replaceStore db sid (gradedSub sub none cm) hgid
              sub hf'
          have hT2 : submissionCourseTeacher
              (replaceStore db sid (gradedSub sub none cm))
              (gradedSub sub none cm) = some caller.id := hT
          constructor
          · rw [hs2]
            rfl
          · rw [grade_ok_none (replaceStore db sid (gradedSub sub none cm))
              caller sid cm (gradedSub sub none cm) hs2 hT2]
            rw [gradedSub_idem,
              replaceStore_idem db sid (gradedSub sub none cm) hgid]
        | some v =>
          cases hA : findAssignment db sub.assignment with
          | none => simp [grade, hf, hT, validate_score, hA] at h
          | some a =>
            by_cases h1 : v > (a.max_score : Int)
            · simp [grade, hf, hT, validate_score, hA, h1] at h
            · by_cases h2 : v < 0
              · simp [grade, hf, hT, validate_score, hA, h1, h2] at h
              · have hgid : ((gradedSub sub (some v) cm).id == sid) = true :=
                  hid
                rw [grade_ok_some db caller sid v cm sub a hf hT hA h1 h2]
                  at h
                injection h with h'
                subst h'
                have hs2 : findSubmission
                    (replaceStore db sid (gradedSub sub (some v) cm)) sid =
                    some (gradedSub sub (some v) cm) :=
                  findSubmission_replaceStore db sid
                    (gradedSub sub (some v) cm) hgid sub hf'
                have hT2 : submissionCourseTeacher
                    (replaceStore db sid (gradedSub sub (some v) cm))
                    (gradedSub sub (some v) cm) = some caller.id := hT
                have hA2 : findAssignment
                    (replaceStore db sid (gradedSub sub (some v) cm))
                    (gradedSub sub (some v) cm).assignment = some a := hA
                constructor
                · rw [hs2]
                  rfl
                · rw [grade_ok_some
                    (replaceStore db sid (gradedSub sub (some v) cm)) caller
                    sid v cm (gradedSub sub (some v) cm) a hs2 hT2 hA2 h1 h2]
                  rw [gradedSub_idem,
                    replaceStore_idem db sid (gradedSub sub (some v) cm) hgid]
      · simp [grade, hf, hT, htc] at h

/-- C9 (witness): grading the fixture pending submission with score 50 and
then reapplying the theorem's conclusion at that concrete success. -/
theorem C9_witness :
    (findSubmission (replaceStore gradeDb 1
        (gradedSub submission1 (some 50) (some "Молодец"))) 1).map
      (fun s => s.status) = some SubmissionStatus.checked ∧
    grade (replaceStore gradeDb 1
        (gradedSub submission1 (some 50) (some "Молодец"))) uTeacher 1
        (some 50) (some "Молодец") =
      ApiResult.ok (replaceStore gradeDb 1
        (gradedSub submission1 (some 50) (some "Молодец"))) :=
  C9_grade_checked_idempotent gradeDb
    (replaceStore gradeDb 1 (gradedSub submission1 (some 50) (some "Молодец")))
    uTeacher 1 (some 50) (some "Молодец")
    (grade_ok_some gradeDb uTeacher 1 50 (some "Молодец") submission1
      assignment1 (by decide) (by decide) (by decide) (by decide) (by decide))

end OnlineSchool
